import Mathlib

/-
Verification of the core identification protocol of a file-format
identification engine (the package core of the siegfried repository,
file pkg/core/core.go).

The embedding models:
  - the persistence cursor (persist.LoadSaver) with its sticky error field;
  - the process-wide identifier-loader registry, an array of 8 slots;
  - RegisterIdentifier and LoadIdentifier from pkg/core/core.go;
  - the MatcherType enumeration from pkg/core/core.go;
  - the engine fan-out of one Result across the Recorders.

Go mutates state in place; here state is passed explicitly.  A Go function
that can hit a runtime abort (array index out of range) is embedded as an
Option-returning function where the value none denotes the abort.
-/

namespace Siegfried

/-- Modelled from the spec: the persistence cursor (package persist, file not
under src/).  An opaque sequential read cursor holding the bytes still to be
read and a sticky first-error field: once the error is set, further reads are
no-ops that preserve the first error. -/
structure LoadSaver where
  buf : List Nat
  err : Option String
deriving DecidableEq

/-- Error message set by LoadIdentifier when no loader is registered at the
tag read (errors.New in pkg/core/core.go). -/
def msgBadIdentifierLoader : String := "bad identifier loader"

/-- Modelled from the spec: error message the cursor sets when a read runs
past the end of the buffered bytes (package persist, file not under src/). -/
def msgReadPastEnd : String := "read past end of persisted bytes"

/-- Error message used only to build concrete errored cursors in tests. -/
def msgBoom : String := "boom"

/-- Modelled from the spec: LoadByte of the persistence cursor (package
persist, file not under src/).  On an errored cursor the read is a no-op that
returns the zero byte and preserves the first error; on an exhausted cursor
it sets the error and returns the zero byte; otherwise it consumes and
returns the next byte.  Bytes are reduced mod 256. -/
def LoadSaver.loadByte (ls : LoadSaver) : LoadSaver × Nat :=
  match ls.err with
  | some _ => (ls, 0)
  | none =>
    match ls.buf with
    | [] => ({ ls with err := some msgReadPastEnd }, 0)
    | b :: rest => ({ ls with buf := rest }, b % 256)

/-- IdentifierLoader (pkg/core/core.go): a function unmarshalling an
Identifier from the cursor.  The Identifier type is abstract (a type
parameter); the loader may advance the cursor and returns a possibly-nil
Identifier, so its result is the new cursor paired with an Option. -/
def IdentifierLoader (α : Type) : Type := LoadSaver → LoadSaver × Option α

/-- The type of the registry state: the variable loaders of pkg/core/core.go
is an array of exactly 8 IdentifierLoader slots, each possibly nil. -/
def Loaders (α : Type) : Type := Fin 8 → Option (IdentifierLoader α)

/-- The initial registry value: all 8 slots nil (pkg/core/core.go line 45). -/
def loadersInit (α : Type) : Loaders α := fun _ => none

/-- RegisterIdentifier (pkg/core/core.go): writes the loader into the slot at
index id.  Go performs loaders[int(id)] = l on a fixed-size array of 8, so an
id of 8 or more aborts with an index-out-of-range runtime error, embedded
here as the result none. -/
def RegisterIdentifier {α : Type} (L : Loaders α) (id : Nat)
    (l : Option (IdentifierLoader α)) : Option (Loaders α) :=
  if id < 8 then some (fun j => if j.val = id then l else L j) else none

/-- LoadIdentifier (pkg/core/core.go): reads one tag byte from the cursor,
indexes the loader array with it, and either dispatches to the registered
loader or records the bad-identifier-loader error on the cursor (only when
the cursor does not already carry an error) and returns nil.  Go indexes
loaders[int(id)] before any nil check, so a tag byte of 8 or more aborts
with an index-out-of-range runtime error, embedded as the result none. -/
def LoadIdentifier {α : Type} (L : Loaders α) (ls : LoadSaver) :
    Option (LoadSaver × Option α) :=
  if h : (LoadSaver.loadByte ls).snd < 8 then
    match L ⟨(LoadSaver.loadByte ls).snd, h⟩ with
    | some l => some (l (LoadSaver.loadByte ls).fst)
    | none =>
      if (LoadSaver.loadByte ls).fst.err = none then
        some ({ (LoadSaver.loadByte ls).fst with err := some msgBadIdentifierLoader }, none)
      else
        some ((LoadSaver.loadByte ls).fst, none)
  else
    none

/-- A loader preserves the cursor's sticky error discipline: applied to a
cursor already carrying an error, it leaves that first error in place.  The
spec requires this of every persistence operation, and registered loaders
are built from persistence reads. -/
def ErrPreserving {α : Type} (l : IdentifierLoader α) : Prop :=
  ∀ (ls : LoadSaver) (e : String), ls.err = some e → ((l ls).fst).err = some e

/-- MatcherType (pkg/core/core.go): the enumerated tag naming which matching
technique produced a hit.  In Go it is an int type with six constants
declared by iota. -/
inductive MatcherType where
  | ExtensionMatcher
  | MIMEMatcher
  | ContainerMatcher
  | ByteMatcher
  | TextMatcher
  | XMLMatcher
deriving DecidableEq

/-- The integer value of each MatcherType constant, as assigned by iota in
pkg/core/core.go (ExtensionMatcher = 0 through XMLMatcher = 5). -/
def MatcherType.toInt : MatcherType → Int
  | .ExtensionMatcher => 0
  | .MIMEMatcher => 1
  | .ContainerMatcher => 2
  | .ByteMatcher => 3
  | .TextMatcher => 4
  | .XMLMatcher => 5

/-- Modelled from the spec: the default matcher execution order of the
orchestration engine (file siegfried.go, not under src/), which processes
the matcher types in increasing MatcherType order. -/
def defaultMatcherOrder : List MatcherType :=
  [MatcherType.ExtensionMatcher, MatcherType.MIMEMatcher, MatcherType.ContainerMatcher,
   MatcherType.ByteMatcher, MatcherType.TextMatcher, MatcherType.XMLMatcher]

/-- Modelled from the spec: the engine's fan-out of one Result (file
siegfried.go, not under src/).  For a single raw hit, the engine walks the
Recorders in Identifier registration order calling Record on each, and stops
at the first Recorder that returns true (first-claim-wins).  A Recorder is
abstracted to its Record behaviour on the current session state, a function
from matcher type and result to Bool; the value returned is the sequence of
Record return values actually observed, in call order. -/
def fanOutCalls {ρ : Type} (recs : List (MatcherType → ρ → Bool))
    (t : MatcherType) (res : ρ) : List Bool :=
  match recs with
  | [] => []
  | r :: rest => if r t res then [true] else false :: fanOutCalls rest t res

/-- A concrete loader used to build registries in concrete test theorems:
it leaves the cursor unchanged and produces the identifier 7. -/
def loader7 : IdentifierLoader Nat := fun c => (c, some 7)

/-- A concrete loader used to build registries in concrete test theorems:
it leaves the cursor unchanged and produces the identifier 99. -/
def loader99 : IdentifierLoader Nat := fun c => (c, some 99)

/-- A concrete registry with loader7 registered at tag 2, as produced by
RegisterIdentifier on the initial registry. -/
def regTag2 : Loaders Nat :=
  fun j => if j.val = 2 then some loader7 else loadersInit Nat j

/-- The registry regTag2 after a nil loader is registered over tag 2. -/
def regTag2Nil : Loaders Nat :=
  fun j => if j.val = 2 then none else regTag2 j

/-- A concrete registry with loader99 registered at tag 0, as produced by
RegisterIdentifier on the initial registry. -/
def regTag0 : Loaders Nat :=
  fun j => if j.val = 0 then some loader99 else loadersInit Nat j

/-- The initial registry after loader7 is registered at tag 1. -/
def regB1 : Loaders Nat :=
  fun j => if j.val = 1 then some loader7 else loadersInit Nat j

/-- The registry regB1 after loader99 is registered over tag 1. -/
def regB2 : Loaders Nat :=
  fun j => if j.val = 1 then some loader99 else regB1 j

theorem loadByte_err (buf : List Nat) (e : String) :
    LoadSaver.loadByte { buf := buf, err := some e } = ({ buf := buf, err := some e }, 0) := rfl

theorem loadByte_cons (b : Nat) (rest : List Nat) :
    LoadSaver.loadByte { buf := b :: rest, err := none } =
      ({ buf := rest, err := none }, b % 256) := rfl

theorem registerIdentifier_lt {α : Type} (L : Loaders α) (id : Nat)
    (l : Option (IdentifierLoader α)) (h : id < 8) :
    RegisterIdentifier L id l = some (fun j => if j.val = id then l else L j) := by
  simp [RegisterIdentifier, h]

theorem loadIdentifier_eq {α : Type} (L : Loaders α) (t : Nat) (rest : List Nat)
    (ht : t < 8) :
    LoadIdentifier L { buf := t :: rest, err := none } =
      match L ⟨t, ht⟩ with
      | some l => some (l { buf := rest, err := none })
      | none => some ({ buf := rest, err := some msgBadIdentifierLoader }, none) := by
  have hmod : t % 256 = t := Nat.mod_eq_of_lt (lt_of_lt_of_le ht (by norm_num))
  simp only [LoadIdentifier, loadByte_cons, hmod]
  rw [dif_pos ht]
  cases h : L ⟨t, ht⟩ with
  | none => simp
  | some l => simp

theorem loadIdentifier_err_eq {α : Type} (L : Loaders α) (buf : List Nat) (e : String) :
    LoadIdentifier L { buf := buf, err := some e } =
      match L ⟨0, Nat.succ_pos 7⟩ with
      | some l => some (l { buf := buf, err := some e })
      | none => some ({ buf := buf, err := some e }, none) := by
  simp only [LoadIdentifier, loadByte_err]
  rw [dif_pos (Nat.succ_pos 7)]
  cases h : L ⟨0, Nat.succ_pos 7⟩ with
  | none => simp
  | some l => simp

/-- C1 counterexample: on an error-free cursor whose next byte is the tag 8,
for which no registry slot exists, LoadIdentifier does not record a load
error on the cursor; it indexes past the 8-slot loader array and aborts the
process (the abort is embedded as the result none). -/
theorem loadIdentifier_oob_tag_aborts :
    LoadIdentifier (loadersInit Nat) { buf := [8], err := none } = none := rfl

/-- C1 (amended): LoadIdentifier never aborts provided the tag byte it reads
is below 8: on any such cursor, registered or not, errored or not, it
returns (it never panics).  The unamended claim fails only when an
error-free cursor's next byte is 8 or more, which indexes past the fixed
8-slot loader array. -/
theorem loadIdentifier_total_of_small_tag {α : Type} (L : Loaders α) (ls : LoadSaver)
    (h : (LoadSaver.loadByte ls).snd < 8) :
    (LoadIdentifier L ls).isSome = true := by
  simp only [LoadIdentifier]
  rw [dif_pos h]
  split
  · simp
  · split <;> simp

/-- C1 witness: the amended no-abort theorem applied at a concrete error-free
cursor whose next byte is the small tag 3. -/
theorem loadIdentifier_total_of_small_tag_witness :
    (LoadIdentifier (loadersInit Nat) { buf := [3], err := none }).isSome = true :=
  loadIdentifier_total_of_small_tag (loadersInit Nat) { buf := [3], err := none } (by decide)

/-- C2: after RegisterIdentifier stores loader l at a tag t below 8, invoking
LoadIdentifier on an error-free cursor whose next byte is t dispatches to
exactly l, applying it to the cursor advanced past the tag byte, and returns
whatever l produces. -/
theorem loadIdentifier_dispatch {α : Type} (L L' : Loaders α) (t : Nat) (rest : List Nat)
    (l : IdentifierLoader α) (ht : t < 8)
    (hr : RegisterIdentifier L t (some l) = some L') :
    LoadIdentifier L' { buf := t :: rest, err := none } =
      some (l { buf := rest, err := none }) := by
  rw [registerIdentifier_lt L t (some l) ht] at hr
  have hL' : L' ⟨t, ht⟩ = some l := by
    rw [← Option.some.inj hr]
    simp
  rw [loadIdentifier_eq L' t rest ht, hL']

/-- C2 witness: dispatch through the registry with loader7 registered at
tag 2, on the concrete cursor holding bytes 2 then 9. -/
theorem loadIdentifier_dispatch_witness :
    LoadIdentifier regTag2 { buf := [2, 9], err := none } =
      some (loader7 { buf := [9], err := none }) :=
  loadIdentifier_dispatch (loadersInit Nat) regTag2 2 [9] loader7 (by decide) rfl

/-- C3: on an error-free cursor whose next byte is a tag t below 8 at which
no loader is registered, LoadIdentifier returns nil (no identifier) and
leaves the bad-identifier-loader error set in the cursor's error field. -/
theorem loadIdentifier_unregistered {α : Type} (L : Loaders α) (t : Nat) (rest : List Nat)
    (ht : t < 8) (hl : L ⟨t, ht⟩ = none) :
    LoadIdentifier L { buf := t :: rest, err := none } =
      some ({ buf := rest, err := some msgBadIdentifierLoader }, none) := by
  rw [loadIdentifier_eq L t rest ht, hl]

/-- C3 witness: the unregistered-tag load error on the empty registry at the
concrete cursor holding bytes 4 then 7. -/
theorem loadIdentifier_unregistered_witness :
    LoadIdentifier (loadersInit Nat) { buf := [4, 7], err := none } =
      some ({ buf := [7], err := some msgBadIdentifierLoader }, none) :=
  loadIdentifier_unregistered (loadersInit Nat) 4 [7] (by decide) rfl

/-- C4 counterexample: when a loader is registered at tag 0, LoadIdentifier
on a cursor that already carries an error does return a reconstructed
Identifier: the errored read of the tag byte yields the zero byte, which
dispatches to the loader at slot 0 (here producing identifier 99), so the
claim that no Identifier is returned fails on this input. -/
theorem loadIdentifier_errored_cursor_cex :
    RegisterIdentifier (loadersInit Nat) 0 (some loader99) = some regTag0 ∧
    LoadIdentifier regTag0 { buf := [], err := some msgBoom } =
      some ({ buf := [], err := some msgBoom }, some 99) ∧
    (LoadIdentifier regTag0 { buf := [], err := some msgBoom }).map Prod.snd ≠ some none :=
  ⟨rfl, rfl, by decide⟩

/-- C4 (amended): on a cursor that already carries an error, the tag read is
a no-op returning the zero byte, so provided no loader is registered at tag
0, LoadIdentifier fails with a load error: it returns nil, consumes nothing,
and the cursor keeps its first error unchanged.  If a loader is registered
at tag 0, LoadIdentifier instead dispatches to it and returns whatever that
loader produces on the errored cursor. -/
theorem loadIdentifier_errored_cursor {α : Type} (L : Loaders α) (buf : List Nat) (e : String)
    (h0 : L 0 = none) :
    LoadIdentifier L { buf := buf, err := some e } =
      some ({ buf := buf, err := some e }, none) := by
  have h0' : L ⟨0, Nat.succ_pos 7⟩ = none := h0
  rw [loadIdentifier_err_eq L buf e, h0']

/-- C4 witness: the amended errored-cursor theorem on the empty registry at
a concrete cursor already carrying an error. -/
theorem loadIdentifier_errored_cursor_witness :
    LoadIdentifier (loadersInit Nat) { buf := [5], err := some msgBoom } =
      some ({ buf := [5], err := some msgBoom }, none) :=
  loadIdentifier_errored_cursor (loadersInit Nat) [5] msgBoom rfl

/-- C5: LoadIdentifier never overwrites an existing cursor error.  For every
registry whose registered loaders respect the sticky-error discipline (as
all loaders built from persistence reads do), if the cursor carries an error
on entry then whatever LoadIdentifier returns still holds that same first
error in the cursor's error field, whether or not a loader was found at the
tag read. -/
theorem loadIdentifier_preserves_err {α : Type} (L : Loaders α) (buf : List Nat) (e : String)
    (out : LoadSaver × Option α)
    (hL : ∀ (t : Fin 8) (l : IdentifierLoader α), L t = some l → ErrPreserving l)
    (hout : LoadIdentifier L { buf := buf, err := some e } = some out) :
    out.fst.err = some e := by
  rw [loadIdentifier_err_eq L buf e] at hout
  cases h : L ⟨0, Nat.succ_pos 7⟩ with
  | none =>
    rw [h] at hout
    cases Option.some.inj hout
    rfl
  | some l =>
    rw [h] at hout
    cases Option.some.inj hout
    exact hL ⟨0, Nat.succ_pos 7⟩ l h { buf := buf, err := some e } e rfl

/-- C5 witness: error preservation on the empty registry at a concrete
errored cursor, whose load returns the cursor unchanged and no identifier. -/
theorem loadIdentifier_preserves_err_witness :
    (({ buf := [3], err := some msgBoom } : LoadSaver), (none : Option Nat)).fst.err =
      some msgBoom :=
  loadIdentifier_preserves_err (loadersInit Nat) [3] msgBoom
    ({ buf := [3], err := some msgBoom }, none)
    (fun _ _ h => Option.noConfusion h) rfl

/-- C6: the loader registry has exactly 8 fixed-capacity slots (the type
Loaders indexes by Fin 8), and registering l1 then l2 at the same tag t
silently overwrites: both registrations succeed without error, the slot at t
holds l2, and every other slot s is unchanged from the original registry. -/
theorem registerIdentifier_overwrite {α : Type} (L L1 L2 : Loaders α) (t s : Fin 8)
    (l1 l2 : Option (IdentifierLoader α))
    (h1 : RegisterIdentifier L t.val l1 = some L1)
    (h2 : RegisterIdentifier L1 t.val l2 = some L2)
    (hs : s ≠ t) :
    L2 t = l2 ∧ L2 s = L s := by
  rw [registerIdentifier_lt L t.val l1 t.isLt] at h1
  rw [registerIdentifier_lt L1 t.val l2 t.isLt] at h2
  have hsv : s.val ≠ t.val := fun hv => hs (Fin.ext hv)
  rw [← Option.some.inj h2, ← Option.some.inj h1]
  constructor
  · simp
  · simp [hsv]

/-- C6 witness: overwriting tag 1 (loader7 then loader99) on the empty
registry leaves loader99 at slot 1 and slot 0 unchanged. -/
theorem registerIdentifier_overwrite_witness :
    regB2 1 = some loader99 ∧ regB2 0 = loadersInit Nat 0 :=
  registerIdentifier_overwrite (loadersInit Nat) regB1 regB2 1 0
    (some loader7) (some loader99) rfl rfl (by decide)

/-- C7: the MatcherType enumeration consists of exactly the six values
Extension, MIME, Container, Byte, Text, XML; their iota-assigned integers
are strictly increasing in that sequence, so the order
Extension < MIME < Container < Byte < Text < XML holds, and that sequence is
the default matcher execution order of the engine. -/
theorem matcherType_enum_order :
    defaultMatcherOrder =
      [MatcherType.ExtensionMatcher, MatcherType.MIMEMatcher, MatcherType.ContainerMatcher,
       MatcherType.ByteMatcher, MatcherType.TextMatcher, MatcherType.XMLMatcher]
    ∧ List.Chain' (fun a b : MatcherType => a.toInt < b.toInt) defaultMatcherOrder
    ∧ (∀ m : MatcherType, m ∈ defaultMatcherOrder)
    ∧ defaultMatcherOrder.Nodup :=
  ⟨rfl, by norm_num [defaultMatcherOrder, List.chain'_cons, MatcherType.toInt],
   fun m => by cases m <;> decide, by decide⟩

/-- C8: for one Result fanned out by the engine, the Record calls observed
form exactly the all-false front of the Recorder sequence in registration
order followed by at most the first claiming call: the iteration stops at
the first Recorder whose Record returns true, and hence at most one Recorder
across all Identifiers returns true for that Result. -/
theorem fanOut_first_claim_wins {ρ : Type} (recs : List (MatcherType → ρ → Bool))
    (t : MatcherType) (res : ρ) :
    fanOutCalls recs t res =
      (recs.map fun r => r t res).takeWhile (fun b => !b) ++
        ((recs.map fun r => r t res).dropWhile (fun b => !b)).take 1
    ∧ (fanOutCalls recs t res).count true ≤ 1 := by
  induction recs with
  | nil => exact ⟨rfl, by simp [fanOutCalls]⟩
  | cons r rest ih =>
    cases hb : r t res with
    | true =>
      constructor
      · simp [fanOutCalls, hb, List.takeWhile_cons, List.dropWhile_cons]
      · simp [fanOutCalls, hb]
    | false =>
      constructor
      · simpa [fanOutCalls, hb, List.takeWhile_cons, List.dropWhile_cons] using ih.1
      · simpa [fanOutCalls, hb, List.count_cons] using ih.2

/-- C9: RegisterIdentifier is total only for tags below 8: for every byte id
with 8 or more (and below 256), registering any loader indexes past the
fixed 8-slot loader array and aborts with an out-of-range error (embedded as
the result none) instead of returning or reporting an error. -/
theorem registerIdentifier_oob {α : Type} (L : Loaders α) (id : Nat)
    (l : Option (IdentifierLoader α)) (h8 : 8 ≤ id) (_h256 : id < 256) :
    RegisterIdentifier L id l = none := by
  unfold RegisterIdentifier
  rw [if_neg (Nat.not_lt.mpr h8)]

/-- C9 witness: registering at tag 8, the first out-of-range index, aborts. -/
theorem registerIdentifier_oob_witness :
    RegisterIdentifier (loadersInit Nat) 8 none = none :=
  registerIdentifier_oob (loadersInit Nat) 8 none (by decide) (by decide)

/-- C10: registering a nil loader at a tag t below 8 is indistinguishable at
the load interface from never registering that tag: a subsequent
LoadIdentifier on an error-free cursor whose next byte is t returns nil and
sets the cursor's error to the bad-identifier-loader error. -/
theorem loadIdentifier_nil_registered {α : Type} (L L' : Loaders α) (t : Nat) (rest : List Nat)
    (ht : t < 8) (hr : RegisterIdentifier L t none = some L') :
    LoadIdentifier L' { buf := t :: rest, err := none } =
      some ({ buf := rest, err := some msgBadIdentifierLoader }, none) := by
  rw [registerIdentifier_lt L t none ht] at hr
  have hL' : L' ⟨t, ht⟩ = none := by
    rw [← Option.some.inj hr]
    simp
  rw [loadIdentifier_eq L' t rest ht, hL']

/-- C10 witness: registering nil over the previously registered tag 2 makes
a load of tag 2 fail with the bad-identifier-loader error. -/
theorem loadIdentifier_nil_registered_witness :
    LoadIdentifier regTag2Nil { buf := [2, 5], err := none } =
      some ({ buf := [5], err := some msgBadIdentifierLoader }, none) :=
  loadIdentifier_nil_registered regTag2 regTag2Nil 2 [5] (by decide) rfl

end Siegfried
